import Mathlib

/-!
Verification development for the SistemaFinanceiro ledger application.

The definitions below are a shallow embedding of the TypeScript source:
  * `types.ts`                 — the `Transaction` data model;
  * the App component (`globalBalanceMap`, the cash-flow tab wiring);
  * `TransactionForm.tsx`      — `calculateDate` and `handleSubmit`
    (recurrence expansion, transfer pair creation, edit of transfer legs);
  * `CashFlowReport.tsx`       — `cashFlowData`;
  * `Summary.tsx`              — `summary` and `bankBalances`;
  * `TransactionList.tsx`      — the CSV import value/type selection;
  * `financeService`           — the local-storage implementations of
    `getTransactions` (filtering) and `getBalancesBefore`.

Modelling conventions:
  * JavaScript numbers that hold monetary amounts are modelled as `Int`
    (the claims under study only involve addition, subtraction and sign,
    which are exact in both settings).
  * ISO date strings `YYYY-MM-DD` are modelled as `CalDate` triples; both
    the string comparisons (`t.date < startDate`, `localeCompare`) and
    `new Date(s).getTime()` comparisons used by the source coincide with
    the lexicographic order on (year, month, day) for such strings.
  * `Array.prototype.sort` with a comparator is modelled by
    `List.insertionSort`, a stable sort; the sources either sort by a
    total order (date then id) or only use the result in ways that do not
    depend on the tie order.
  * `crypto.randomUUID()` is modelled as an oracle `uuid : Nat → String`
    supplying the fresh identifier chosen at loop iteration `i`.
  * JavaScript objects / `Map`s used as dictionaries are modelled as
    association lists with last-write-wins (object) or
    update-first/insertion-order (`Map`) semantics.
-/

namespace SistemaFinanceiro

/-- `'CREDIT' | 'DEBIT'` from `types.ts`. -/
inductive TxType where
  | CREDIT
  | DEBIT
deriving DecidableEq, Repr

/-- `'PAID' | 'PENDING'` from `types.ts`. -/
inductive TxStatus where
  | PAID
  | PENDING
deriving DecidableEq, Repr

/-- A calendar date, the model of the `YYYY-MM-DD` strings stored in
`Transaction.date`. -/
structure CalDate where
  y : Nat
  m : Nat
  d : Nat
deriving DecidableEq, Repr

/-- Strict chronological order on dates: the model of both
`new Date(a).getTime() < new Date(b).getTime()` and the string
comparison `a < b` on ISO dates. -/
def dateLT (a b : CalDate) : Prop :=
  a.y < b.y ∨ (a.y = b.y ∧ (a.m < b.m ∨ (a.m = b.m ∧ a.d < b.d)))

instance decDateLT (a b : CalDate) : Decidable (dateLT a b) := by
  unfold dateLT
  exact inferInstance

/-- Non-strict chronological order on dates (model of `<=` / `>=` on ISO
date strings). -/
def dateLE (a b : CalDate) : Prop := dateLT a b ∨ a = b

instance decDateLE (a b : CalDate) : Decidable (dateLE a b) := by
  unfold dateLE
  exact inferInstance

/-- The `Transaction` interface from `types.ts`. -/
structure Transaction where
  id : String
  date : CalDate
  description : String
  docNumber : String
  value : Int
  type : TxType
  status : TxStatus
  bankId : String
  categoryId : String
  participantId : String
  costCenterId : String
  walletId : String
  linkedId : Option String
deriving DecidableEq, Repr

/-- A registry entry (`Bank` in `types.ts`): `id` and `name`. -/
structure Bank where
  id : String
  name : String
deriving DecidableEq, Repr

/-- The signed contribution of a transaction to a balance:
`t.type === 'CREDIT' ? t.value : -t.value`. -/
def signedValue (t : Transaction) : Int :=
  if t.type = TxType.CREDIT then t.value else -t.value

/-- Sum of signed values of a transaction list. -/
def sumSigned (l : List Transaction) : Int := (l.map signedValue).sum

/-! ### JavaScript `Date` arithmetic (for `calculateDate`)

`calculateDate` in `TransactionForm.tsx` manipulates a JS `Date` via
`setMonth`, `setDate` and `setFullYear`.  A JS `Date` constructed as
`new Date(y, monthIndex, day)` normalises out-of-range fields: the month
index is folded into the year, and a day count exceeding the target
month's length rolls over into the following month(s).  `setDate(0)`
yields the last day of the previous month.  The functions below embed
exactly this normalisation.  `normDaysFuel` uses a fuel argument (the
initial day count is always a sufficient fuel, since every step consumes
at least 28 days) so that the definition is structurally recursive and
evaluates by kernel reduction. -/

/-- JS leap-year rule used by `Date`. -/
def isLeap (y : Nat) : Bool :=
  (y % 4 == 0 && y % 100 != 0) || y % 400 == 0

/-- Number of days of month `m` (1-based) of year `y`. -/
def daysInMonth (y m : Nat) : Nat :=
  if m = 2 then (if isLeap y then 29 else 28)
  else if m = 4 ∨ m = 6 ∨ m = 9 ∨ m = 11 then 30
  else 31

/-- Roll an excessive day count forward into the following months, as JS
`Date` normalisation does.  `fuel` bounds the recursion; it is always
called with `fuel = d`, which suffices because every step removes at
least 28 from `d`. -/
def normDaysFuel : Nat → Nat → Nat → Nat → CalDate
  | 0, y, m, d => ⟨y, m, d⟩
  | fuel + 1, y, m, d =>
    if d ≤ daysInMonth y m then ⟨y, m, d⟩
    else if 12 ≤ m then normDaysFuel fuel (y + 1) 1 (d - daysInMonth y m)
    else normDaysFuel fuel y (m + 1) (d - daysInMonth y m)

/-- Day-overflow normalisation for a (year, month `1..12`, day ≥ 1)
triple. -/
def normDays (y m d : Nat) : CalDate := normDaysFuel d y m d

/-- The model of `new Date(y, monthIndex, day)` for `day ≥ 1`: the month
index (0-based, possibly ≥ 12) is folded into the year, then the day
count is normalised. -/
def jsDate (y mIdx d : Nat) : CalDate :=
  normDays (y + mIdx / 12) (mIdx % 12 + 1) d

/-- The model of `setDate(0)` applied to a date in year `y`, month `m`
(1-based): the last day of the preceding month. -/
def dayBefore (y m : Nat) : CalDate :=
  if m ≤ 1 then ⟨y - 1, 12, 31⟩ else ⟨y, m - 1, daysInMonth y (m - 1)⟩

/-- The recurrence frequencies offered by the form
(`'MONTHLY' | 'WEEKLY' | 'YEARLY'`). -/
inductive RecurrenceFrequency where
  | MONTHLY
  | WEEKLY
  | YEARLY
deriving DecidableEq, Repr

/-- `calculateDate(startDate, offset, freq)` from `TransactionForm.tsx`.
The ISO string is already split into the `CalDate` components `sd`
(matching `const [y, m, d] = startDate.split('-').map(Number)`); the
returned formatted string is modelled by the resulting `CalDate`.
  * MONTHLY: `date.setMonth(date.getMonth() + offset)` followed by
    `date.setDate(0)` when the day-of-month changed (clamping to the last
    day of the target month);
  * WEEKLY: `date.setDate(date.getDate() + offset * 7)`;
  * YEARLY: `date.setFullYear(date.getFullYear() + offset)` with no
    day adjustment. -/
def calculateDate (sd : CalDate) (offset : Nat) (freq : RecurrenceFrequency) : CalDate :=
  let date := jsDate sd.y (sd.m - 1) sd.d
  match freq with
  | RecurrenceFrequency.MONTHLY =>
    let t := jsDate date.y (date.m - 1 + offset) date.d
    if t.d ≠ sd.d then dayBefore t.y t.m else t
  | RecurrenceFrequency.WEEKLY =>
    jsDate date.y (date.m - 1) (date.d + offset * 7)
  | RecurrenceFrequency.YEARLY =>
    jsDate (date.y + offset) (date.m - 1) date.d

/-! ### `TransactionForm.handleSubmit`

The submission handler builds the list `transactionsToSave` from the form
state.  Its inputs are the component state at submission time:
`formData`, `id` (empty for a new entry), `mode`, `targetBankId`,
`linkedId`, the recurrence flags, and — for edits — `initialData` and
`partnerData`.  `crypto.randomUUID()` is modelled by the oracle
`uuid : Nat → String`. -/

/-- The `Omit<Transaction, 'id'>` form state of `TransactionForm`. -/
structure FormState where
  date : CalDate
  description : String
  docNumber : String
  value : Int
  type : TxType
  status : TxStatus
  bankId : String
  categoryId : String
  costCenterId : String
  participantId : String
  walletId : String
deriving DecidableEq, Repr

/-- `type FormMode = 'DEFAULT' | 'TRANSFER'`. -/
inductive FormMode where
  | DEFAULT
  | TRANSFER
deriving DecidableEq, Repr

/-- `const loops = (isNew && isRecurrent) ? Math.max(1, recurrenceCount) : 1`
where `isNew = !id`. -/
def numLoops (id : String) (isRecurrent : Bool) (recurrenceCount : Nat) : Nat :=
  if id == "" && isRecurrent then max 1 recurrenceCount else 1

/-- `currentData.date` at loop iteration `i`: advanced by `calculateDate`
for `i > 0`, the form's own date for `i = 0`. -/
def recurDate (fs : FormState) (freq : RecurrenceFrequency) (i : Nat) : CalDate :=
  if 0 < i then calculateDate fs.date i freq else fs.date

/-- `currentData.status` at loop iteration `i`: forced to `'PENDING'` for
`i > 0`. -/
def recurStatus (fs : FormState) (i : Nat) : TxStatus :=
  if 0 < i then TxStatus.PENDING else fs.status

/-- The sequence marker `(i+1/loops)` appended to descriptions of
recurrent entries. -/
def parenSeq (i loops : Nat) : String :=
  "(" ++ toString (i + 1) ++ "/" ++ toString loops ++ ")"

/-- `banks.find(b => b.id === bid)?.name || dflt`: the bank's name, with
the fallback used when the bank is missing or its name is empty. -/
def bankNameOr (banks : List Bank) (bid dflt : String) : String :=
  match banks.find? (fun b => b.id == bid) with
  | some b => if b.name = "" then dflt else b.name
  | none => dflt

/-- `partnerData?.id || ''`. -/
def partnerLegId (partner : Option Transaction) : String :=
  match partner with
  | some p => p.id
  | none => ""

/-- The ids kept for the two legs at iteration `i`:
`(debitLegId, creditLegId)`.  They are non-empty only when `i = 0` and an
edit is in progress (`initialData` present); the counterpart id comes
from `partnerData?.id || ''`. -/
def legIds (i : Nat) (ini partner : Option Transaction) : String × String :=
  if i = 0 then
    match ini with
    | some t0 =>
      match t0.linkedId with
      | some _ =>
        if t0.type = TxType.DEBIT then (t0.id, partnerLegId partner)
        else (partnerLegId partner, t0.id)
      | none => (t0.id, "")
    | none => ("", "")
  else ("", "")

/-- `const currentLinkedId = (i === 0 && linkedId) ? linkedId :
crypto.randomUUID()`. -/
def currentLinkedIdOf (linkedId : Option String) (uuid : Nat → String) (i : Nat) : String :=
  match linkedId with
  | some l => if i = 0 then l else uuid i
  | none => uuid i

/-- The first `transactionsToSave.push` of `TRANSFER` mode at iteration
`i`: the DEBIT leg on the source bank. -/
def transferDebitLeg (fs : FormState) (targetBankId : String) (linkedId : Option String)
    (freq : RecurrenceFrequency) (loops : Nat) (ini partner : Option Transaction)
    (banks : List Bank) (uuid : Nat → String) (i : Nat) : Transaction :=
  { id := (legIds i ini partner).1
    date := recurDate fs freq i
    description := "Transf. p/ " ++ bankNameOr banks targetBankId "Destino" ++ " " ++
      (if 1 < loops then parenSeq i loops else "")
    docNumber := fs.docNumber
    value := fs.value
    type := TxType.DEBIT
    status := recurStatus fs i
    bankId := fs.bankId
    categoryId := fs.categoryId
    participantId := fs.participantId
    costCenterId := fs.costCenterId
    walletId := fs.walletId
    linkedId := some (currentLinkedIdOf linkedId uuid i) }

/-- The second `transactionsToSave.push` of `TRANSFER` mode at iteration
`i`: the CREDIT leg on the target bank. -/
def transferCreditLeg (fs : FormState) (targetBankId : String) (linkedId : Option String)
    (freq : RecurrenceFrequency) (loops : Nat) (ini partner : Option Transaction)
    (banks : List Bank) (uuid : Nat → String) (i : Nat) : Transaction :=
  { id := (legIds i ini partner).2
    date := recurDate fs freq i
    description := "Transf. de " ++ bankNameOr banks fs.bankId "Origem" ++ " " ++
      (if 1 < loops then parenSeq i loops else "")
    docNumber := fs.docNumber
    value := fs.value
    type := TxType.CREDIT
    status := recurStatus fs i
    bankId := targetBankId
    categoryId := fs.categoryId
    participantId := fs.participantId
    costCenterId := fs.costCenterId
    walletId := fs.walletId
    linkedId := some (currentLinkedIdOf linkedId uuid i) }

/-- The two legs pushed at iteration `i` in `TRANSFER` mode: the DEBIT
leg on the source bank followed by the CREDIT leg on the target bank,
sharing `currentLinkedId`, `currentData.date`, `value` and `status`. -/
def transferLegs (fs : FormState) (targetBankId : String) (linkedId : Option String)
    (freq : RecurrenceFrequency) (loops : Nat) (ini partner : Option Transaction)
    (banks : List Bank) (uuid : Nat → String) (i : Nat) : List Transaction :=
  [transferDebitLeg fs targetBankId linkedId freq loops ini partner banks uuid i,
   transferCreditLeg fs targetBankId linkedId freq loops ini partner banks uuid i]

/-- The transaction pushed at iteration `i` in `DEFAULT` mode. -/
def defaultTx (fs : FormState) (id : String) (freq : RecurrenceFrequency)
    (loops : Nat) (i : Nat) : Transaction :=
  { id := if i = 0 then id else ""
    date := recurDate fs freq i
    description :=
      if 1 < loops then fs.description ++ " " ++ parenSeq i loops else fs.description
    docNumber := fs.docNumber
    value := fs.value
    type := fs.type
    status := recurStatus fs i
    bankId := fs.bankId
    categoryId := fs.categoryId
    participantId := fs.participantId
    costCenterId := fs.costCenterId
    walletId := fs.walletId
    linkedId := none }

/-- The singleton pushed at iteration `i` in `DEFAULT` mode. -/
def defaultLeg (fs : FormState) (id : String) (freq : RecurrenceFrequency)
    (loops : Nat) (i : Nat) : List Transaction :=
  [defaultTx fs id freq loops i]

/-- The body of the `for (let i = 0; i < loops; i++)` loop of
`handleSubmit`. -/
def submitIter (fs : FormState) (id : String) (mode : FormMode) (targetBankId : String)
    (linkedId : Option String) (freq : RecurrenceFrequency) (loops : Nat)
    (ini partner : Option Transaction) (banks : List Bank) (uuid : Nat → String)
    (i : Nat) : List Transaction :=
  match mode with
  | FormMode.TRANSFER => transferLegs fs targetBankId linkedId freq loops ini partner banks uuid i
  | FormMode.DEFAULT => defaultLeg fs id freq loops i

/-- `handleSubmit` of `TransactionForm.tsx`: the list
`transactionsToSave` handed to `onSave`. -/
def handleSubmit (fs : FormState) (id : String) (mode : FormMode) (targetBankId : String)
    (linkedId : Option String) (isRecurrent : Bool) (recurrenceCount : Nat)
    (freq : RecurrenceFrequency) (ini partner : Option Transaction)
    (banks : List Bank) (uuid : Nat → String) : List Transaction :=
  (List.range (numLoops id isRecurrent recurrenceCount)).flatMap
    (submitIter fs id mode targetBankId linkedId freq
      (numLoops id isRecurrent recurrenceCount) ini partner banks uuid)

/-! ### The Balance Engine: `globalBalanceMap` (App component)

```js
const globalBalanceMap = useMemo(() => {
  let relevant = transactions.filter(t => t.status === 'PAID');
  relevant.sort((a, b) => {
    const da = new Date(a.date).getTime();
    const db = new Date(b.date).getTime();
    return da !== db ? da - db : a.id.localeCompare(b.id);
  });
  const map = {};
  let running = selectedBankId && previousBalances.byBank[selectedBankId] !== undefined
      ? previousBalances.byBank[selectedBankId]
      : previousBalances.total;
  relevant.forEach(t => {
    running += (t.type === 'CREDIT' ? t.value : -t.value);
    map[t.id] = running;
  });
  return map;
}, ...);
```
-/

/-- Lexicographic comparison of character lists by code point. -/
def charListLe : List Char → List Char → Bool
  | [], _ => true
  | _ :: _, [] => false
  | c :: cs, d :: ds =>
    if c.toNat < d.toNat then true
    else if d.toNat < c.toNat then false
    else charListLe cs ds

/-- The (non-strict) string order used by the source's
`a.localeCompare(b)` comparators: lexicographic by code point (the ids
and period keys compared are plain ASCII, for which `localeCompare`
agrees with code-point order). -/
def strLe (a b : String) : Bool := charListLe a.data b.data

/-- The comparator of `relevant.sort`: date ascending, ties broken by id
ascending. -/
def txLE (a b : Transaction) : Prop :=
  dateLT a.date b.date ∨ (a.date = b.date ∧ strLe a.id b.id = true)

instance decTxLE : DecidableRel txLE := by
  intro a b
  unfold txLE
  exact inferInstance

/-- The PAID subset of the candidate transactions. -/
def paidOnly (txns : List Transaction) : List Transaction :=
  txns.filter (fun t => t.status == TxStatus.PAID)

/-- The sorted PAID subset (`relevant` after `sort`). -/
def sortedPaid (txns : List Transaction) : List Transaction :=
  List.insertionSort txLE (paidOnly txns)

/-- The seed chosen for the running balance:
`selectedBankId && byBank[selectedBankId] !== undefined ?
byBank[selectedBankId] : total`. -/
def chooseSeed (selectedBankId : String) (prevTotal : Int)
    (prevByBank : List (String × Int)) : Int :=
  if selectedBankId ≠ "" then
    match prevByBank.lookup selectedBankId with
    | some v => v
    | none => prevTotal
  else prevTotal

/-- The `forEach` accumulation: records `(t.id, running)` after adding
`t`'s signed value to the running balance. -/
def scanBal : Int → List Transaction → List (String × Int)
  | _, [] => []
  | running, t :: rest =>
    (t.id, running + signedValue t) :: scanBal (running + signedValue t) rest

/-- Lookup in a JS object built by successive `map[k] = v` assignments:
the last assignment wins. -/
def objGet (entries : List (String × Int)) (k : String) : Option Int :=
  entries.reverse.lookup k

/-- `globalBalanceMap` as the list of `(id, balance)` assignments it
performs, in order. -/
def globalBalanceMap (txns : List Transaction) (selectedBankId : String)
    (prevTotal : Int) (prevByBank : List (String × Int)) : List (String × Int) :=
  scanBal (chooseSeed selectedBankId prevTotal prevByBank) (sortedPaid txns)

/-! ### The Cash-Flow Aggregator: `cashFlowData` (`CashFlowReport.tsx`) -/

/-- `MONTHLY | DAILY` granularity of the cash-flow report. -/
inductive Granularity where
  | MONTHLY
  | DAILY
deriving DecidableEq, Repr

/-- Zero-padded two-digit rendering, `String(n).padStart(2, '0')`. -/
def pad2 (n : Nat) : String :=
  if n < 10 then "0" ++ toString n else toString n

/-- The ISO rendering `YYYY-MM-DD` of a date (as stored in
`Transaction.date`). -/
def isoDate (d : CalDate) : String :=
  toString d.y ++ "-" ++ pad2 d.m ++ "-" ++ pad2 d.d

/-- The grouping key of a transaction:
`` `${date.getFullYear()}-${pad2(month)}` `` for MONTHLY, the ISO date
itself for DAILY. -/
def periodKey (gran : Granularity) (t : Transaction) : String :=
  match gran with
  | Granularity.MONTHLY => toString t.date.y ++ "-" ++ pad2 t.date.m
  | Granularity.DAILY => isoDate t.date

/-- An entry of `periodMap`: per-period totals and constituent
transactions.  The locale-formatted display label is presentation-only
and modelled by the key itself. -/
structure PeriodAcc where
  key : String
  income : Int
  expense : Int
  txs : List Transaction
deriving DecidableEq, Repr

/-- Add transaction `t` to a period entry (`entry.income += value` /
`entry.expense += value`, `entry.transactions.push(t)`). -/
def addToEntry (e : PeriodAcc) (t : Transaction) : PeriodAcc :=
  if t.type = TxType.CREDIT then
    { e with income := e.income + t.value, txs := e.txs ++ [t] }
  else
    { e with expense := e.expense + t.value, txs := e.txs ++ [t] }

/-- Insert a transaction under its key into the (insertion-ordered) list
of period entries, creating the `{income: 0, expense: 0, transactions: []}`
entry on first occurrence of the key, as `periodMap` does. -/
def insertTx : List PeriodAcc → String → Transaction → List PeriodAcc
  | [], key, t => [addToEntry ⟨key, 0, 0, []⟩ t]
  | e :: rest, key, t =>
    if e.key = key then addToEntry e t :: rest else e :: insertTx rest key t

/-- A row of the final cash-flow table. -/
structure CashFlowRow where
  key : String
  initial : Int
  income : Int
  expense : Int
  operational : Int
  final : Int
  txs : List Transaction
deriving DecidableEq, Repr

/-- Step 3 of `cashFlowData`: walk the sorted periods carrying the
running balance. -/
def buildRows : Int → List PeriodAcc → List CashFlowRow
  | _, [] => []
  | running, p :: rest =>
    let op := p.income - p.expense
    let fin := running + op
    { key := p.key, initial := running, income := p.income, expense := p.expense,
      operational := op, final := fin, txs := p.txs } :: buildRows fin rest

/-- Step 1 of `cashFlowData`: the historical opening balance, summed over
the component's `allTransactions` prop — PAID transactions dated strictly
before `startDate` within the selected banks.  `startDate = none` models
the empty string (no start filter): the balance is then 0. -/
def historicalBalance (allTransactions : List Transaction)
    (startDate : Option CalDate) (selectedBankIds : List String) : Int :=
  match startDate with
  | none => 0
  | some s =>
    allTransactions.foldl
      (fun acc t =>
        if dateLT t.date s ∧ selectedBankIds.contains t.bankId ∧ t.status = TxStatus.PAID
        then acc + signedValue t else acc)
      0

/-- Step 2's filter: transactions inside `[startDate, endDate]` (each
bound only when present) and on a selected bank. -/
def periodTransactions (allTransactions : List Transaction)
    (startDate endDate : Option CalDate) (selectedBankIds : List String) :
    List Transaction :=
  allTransactions.filter (fun t =>
    (match startDate with
     | none => true
     | some s => decide (dateLE s t.date)) &&
    (match endDate with
     | none => true
     | some e => decide (dateLE t.date e)) &&
    selectedBankIds.contains t.bankId)

/-- Step 2 of `cashFlowData`: filter, sort by date, group by period key
(insertion order), then sort the groups by key. -/
def cashFlowPeriods (allTransactions : List Transaction) (startDate endDate : Option CalDate)
    (gran : Granularity) (selectedBankIds : List String) : List PeriodAcc :=
  let sorted := List.insertionSort (fun a b => dateLE a.date b.date)
    (periodTransactions allTransactions startDate endDate selectedBankIds)
  let groups := sorted.foldl (fun gs t => insertTx gs (periodKey gran t) t) []
  List.insertionSort (fun a b => strLe a.key b.key = true) groups

/-- `cashFlowData` of `CashFlowReport.tsx`: the sorted period groups
walked with the running balance seeded at the historical balance. -/
def cashFlowData (allTransactions : List Transaction) (startDate endDate : Option CalDate)
    (gran : Granularity) (selectedBankIds : List String) : List CashFlowRow :=
  buildRows (historicalBalance allTransactions startDate selectedBankIds)
    (cashFlowPeriods allTransactions startDate endDate gran selectedBankIds)

/-! ### The local `financeService` (used by the App on the cash-flow tab)

`getTransactions(filters)` (local fallback) filters the stored ledger by
date range, bank, wallet and status, then sorts by date descending;
`getBalancesBefore(dateLimit, bankId, walletId)` computes the historical
balance over the *entire* stored ledger. -/

/-- The status filter of the transaction fetch
(`'PAID' | 'PENDING' | 'ALL'`). -/
inductive StatusFilter where
  | ALL
  | PAID
  | PENDING
deriving DecidableEq, Repr

/-- The `TransactionFilters` record of `financeService`; `none` models an
absent/empty filter component. -/
structure TxFilters where
  startDate : Option CalDate
  endDate : Option CalDate
  bankId : String
  walletId : String
  status : StatusFilter
deriving Repr

/-- The local `getTransactions(filters)`: successive filters, then sort
by date descending. -/
def getTransactionsLocal (filters : TxFilters) (ledger : List Transaction) :
    List Transaction :=
  let l1 := match filters.startDate with
    | some s => ledger.filter (fun t => decide (dateLE s t.date))
    | none => ledger
  let l2 := match filters.endDate with
    | some e => l1.filter (fun t => decide (dateLE t.date e))
    | none => l1
  let l3 := if filters.bankId ≠ "" then l2.filter (fun t => t.bankId == filters.bankId) else l2
  let l4 := if filters.walletId ≠ "" then l3.filter (fun t => t.walletId == filters.walletId) else l3
  let l5 := match filters.status with
    | StatusFilter.ALL => l4
    | StatusFilter.PAID => l4.filter (fun t => t.status == TxStatus.PAID)
    | StatusFilter.PENDING => l4.filter (fun t => t.status == TxStatus.PENDING)
  List.insertionSort (fun a b => dateLE b.date a.date) l5

/-- The `total` computed by the local `getBalancesBefore(dateLimit,
bankId, walletId)`: signed sum of every stored PAID transaction dated
strictly before `dateLimit`, within the bank/wallet scope. -/
def balancesBeforeTotal (ledger : List Transaction) (dateLimit : CalDate)
    (bankId walletId : String) : Int :=
  let rows := ledger.filter (fun t =>
    t.status == TxStatus.PAID && decide (dateLT t.date dateLimit) &&
    (bankId == "" || t.bankId == bankId) && (walletId == "" || t.walletId == walletId))
  rows.foldl (fun acc t => acc + signedValue t) 0

/-- Modelled from the spec (§4.4 step 1, the claim's reference value):
the historical opening balance of a cash-flow view computed over the
*entire* ledger — the sum of signed PAID values over all ledger
transactions dated strictly before the range start, restricted to the
selected bank scope. -/
def specHistoricalSeed (ledger : List Transaction) (startDate : CalDate)
    (selectedBankIds : List String) : Int :=
  sumSigned (ledger.filter (fun t =>
    t.status == TxStatus.PAID && decide (dateLT t.date startDate) &&
    selectedBankIds.contains t.bankId))

/-! ### The Dashboard summary (`Summary.tsx`) -/

/-- The accumulator of the `transactions.reduce` in `Summary.tsx`. -/
structure SummaryAcc where
  balance : Int
  income : Int
  expense : Int
  pendingIncome : Int
  pendingExpense : Int
deriving DecidableEq, Repr

/-- One step of the summary reduction. -/
def summaryStep (acc : SummaryAcc) (t : Transaction) : SummaryAcc :=
  if t.type = TxType.CREDIT then
    { acc with
      balance := if t.status = TxStatus.PAID then acc.balance + t.value else acc.balance
      income := acc.income + t.value
      pendingIncome :=
        if t.status = TxStatus.PENDING then acc.pendingIncome + t.value else acc.pendingIncome }
  else
    { acc with
      balance := if t.status = TxStatus.PAID then acc.balance - t.value else acc.balance
      expense := acc.expense + t.value
      pendingExpense :=
        if t.status = TxStatus.PENDING then acc.pendingExpense + t.value else acc.pendingExpense }

/-- The `summary` memo of `Summary.tsx`. -/
def summary (txns : List Transaction) : SummaryAcc :=
  txns.foldl summaryStep ⟨0, 0, 0, 0, 0⟩

/-- `balances.get(k) || 0` on the association-list model of the
`Map<string, number>`. -/
def mapGet (m : List (String × Int)) (k : String) : Int :=
  (m.lookup k).getD 0

/-- `balances.set(k, v)`: update the existing binding or append a new
one, preserving insertion order. -/
def mapSet : List (String × Int) → String → Int → List (String × Int)
  | [], k, v => [(k, v)]
  | (k1, v1) :: rest, k, v =>
    if k1 = k then (k, v) :: rest else (k1, v1) :: mapSet rest k v

/-- The per-bank accumulation of `bankBalances`: the map is initialised
with every bank at 0, then every PAID transaction with a non-empty
`bankId` adds its signed value under that key. -/
def bankBalancesMap (banks : List Bank) (txns : List Transaction) :
    List (String × Int) :=
  txns.foldl
    (fun m t =>
      if t.status = TxStatus.PAID ∧ t.bankId ≠ "" then
        mapSet m t.bankId (mapGet m t.bankId + signedValue t)
      else m)
    (banks.map (fun b => (b.id, 0)))

/-- An entry of the displayed per-bank balance list. -/
structure BankBalance where
  id : String
  name : String
  balance : Int
deriving DecidableEq, Repr

/-- The displayed `bankBalances`: one entry per bank, zero balances
filtered out, sorted by balance descending. -/
def bankBalances (banks : List Bank) (txns : List Transaction) : List BankBalance :=
  List.insertionSort (fun a b => b.balance ≤ a.balance)
    ((banks.map (fun b =>
        { id := b.id, name := b.name,
          balance := mapGet (bankBalancesMap banks txns) b.id : BankBalance })).filter
      (fun b => b.balance ≠ 0))

/-! ### CSV import (`TransactionList.handleFileChange`)

The value/type selection for each parsed row:

```js
const debitVal = parseMoney(cols[9]);
const creditVal = parseMoney(cols[10]);
let value = 0;
let type = 'DEBIT';
if (creditVal > 0) { value = creditVal; type = 'CREDIT'; }
else if (debitVal > 0) { value = debitVal; type = 'DEBIT'; }
```

`parseMoney` returns 0 when the cell does not parse and the parsed
number otherwise (possibly negative, e.g. for a cell `"-5"`); the
definition below therefore takes the two `parseMoney` results as
arbitrary numeric inputs, which covers every possible output of the
string-level parser. -/

/-- The `(value, type)` pair of an imported CSV row, as a function of the
parsed debit and credit cells. -/
def csvValueType (debitVal creditVal : Int) : Int × TxType :=
  if 0 < creditVal then (creditVal, TxType.CREDIT)
  else if 0 < debitVal then (debitVal, TxType.DEBIT)
  else (0, TxType.DEBIT)

/-! ### Concrete sample data for counterexamples and witnesses -/

/-- A deterministic stand-in for the `crypto.randomUUID()` oracle. -/
def sampleUuid : Nat → String := fun i => "uuid-" ++ toString i

/-- A concrete transaction with every scalar field defaulted; the sample
data below overrides the relevant fields. -/
def baseTx : Transaction :=
  { id := "", date := ⟨2024, 1, 1⟩, description := "", docNumber := ""
    value := 0, type := TxType.CREDIT, status := TxStatus.PAID
    bankId := "", categoryId := "", participantId := "", costCenterId := ""
    walletId := "", linkedId := none }

/-- A concrete form state with both transfer banks set to the same bank
`"bankA"` (reachable in the UI by picking the destination first and then
changing the source to match). -/
def equalBanksForm : FormState :=
  { date := ⟨2024, 2, 1⟩, description := "", docNumber := ""
    value := 300, type := TxType.DEBIT, status := TxStatus.PAID
    bankId := "bankA", categoryId := "cat", costCenterId := ""
    participantId := "", walletId := "w1" }

/-- A concrete form state for a transfer with source bank `"bankB"`. -/
def equalBanksFormB : FormState :=
  { equalBanksForm with bankId := "bankB", value := 120 }

/-- A concrete form state with a negative value, as produced by typing
`-5` into the unbounded numeric value input. -/
def negativeValueForm : FormState :=
  { date := ⟨2024, 3, 5⟩, description := "Estorno", docNumber := ""
    value := -5, type := TxType.DEBIT, status := TxStatus.PAID
    bankId := "bankA", categoryId := "cat", costCenterId := ""
    participantId := "", walletId := "w1" }

/-- The surviving DEBIT leg of a transfer whose counterpart was deleted
out-of-band: it still carries `linkedId = "L"`. -/
def orphanLeg : Transaction :=
  { baseTx with
    id := "legX"
    date := ⟨2024, 4, 2⟩
    description := "Transf. p/ Caixa"
    value := 80
    type := TxType.DEBIT
    bankId := "bankA"
    walletId := "w1"
    linkedId := some "L" }

/-- The form state shown when editing `orphanLeg`. -/
def orphanEditForm : FormState :=
  { date := ⟨2024, 4, 2⟩, description := "Transf. p/ Caixa", docNumber := ""
    value := 80, type := TxType.DEBIT, status := TxStatus.PAID
    bankId := "bankA", categoryId := "", costCenterId := ""
    participantId := "", walletId := "w1" }

/-- A ledger with one PAID transaction before February 2024 and one
inside it, both on bank `"b"`. -/
def c5Ledger : List Transaction :=
  [{ baseTx with id := "t0", date := ⟨2024, 1, 1⟩, value := 100, bankId := "b" },
   { baseTx with id := "t1", date := ⟨2024, 2, 10⟩, value := 50, bankId := "b" }]

/-- The fetch filters active on the cash-flow tab with a start date of
2024-02-01 and no other restriction. -/
def c5Filters : TxFilters :=
  { startDate := some ⟨2024, 2, 1⟩, endDate := none, bankId := "", walletId := ""
    status := StatusFilter.ALL }

/-- The two PAID transactions of the spec's balance scenario (§8):
a CREDIT of 500 on Jan 05 and a DEBIT of 200 on Jan 03. -/
def balanceScenario : List Transaction :=
  [{ baseTx with id := "jan05", date := ⟨2024, 1, 5⟩, value := 500, type := TxType.CREDIT },
   { baseTx with id := "jan03", date := ⟨2024, 1, 3⟩, value := 200, type := TxType.DEBIT },
   { baseTx with
     id := "pend"
     date := ⟨2024, 1, 4⟩
     value := 999
     status := TxStatus.PENDING }]

/-- A PAID CREDIT of 100 with an empty `bankId`. -/
def unassignedPaidTx : Transaction :=
  { baseTx with id := "u1", date := ⟨2024, 6, 1⟩, value := 100 }

/-- A single sample bank. -/
def sampleBank : Bank := { id := "b1", name := "Banco Um" }

/-- A two-month ledger on bank `"b"` for exercising the cash-flow
ladder. -/
def c4Ledger : List Transaction :=
  [{ baseTx with id := "a", date := ⟨2024, 1, 10⟩, value := 100, bankId := "b" },
   { baseTx with
     id := "b"
     date := ⟨2024, 2, 5⟩
     value := 40
     type := TxType.DEBIT
     bankId := "b" }]

/-- A concrete template form state for recurrence expansion. -/
def recurrenceForm : FormState :=
  { date := ⟨2024, 1, 15⟩, description := "Mensalidade", docNumber := ""
    value := 90, type := TxType.DEBIT, status := TxStatus.PAID
    bankId := "bankA", categoryId := "cat", costCenterId := ""
    participantId := "", walletId := "w1" }

/-! ## Shared list lemmas -/

theorem flatMap_singleton_eq_map {α β : Type} (l : List β) (f : β → α) :
    l.flatMap (fun x => [f x]) = l.map f := by
  induction l with
  | nil => rfl
  | cons x xs ih => simp [ih]

theorem range_flatMap_pair_length {α : Type} (d c : Nat → α) (n : Nat) :
    ((List.range n).flatMap fun i => [d i, c i]).length = 2 * n := by
  induction n with
  | zero => rfl
  | succ n ih =>
    rw [List.range_succ, List.flatMap_append, List.length_append, ih]
    simp
    omega

theorem range_flatMap_pair_getElem {α : Type} (d c : Nat → α) :
    ∀ n k : Nat, k < n →
      ((List.range n).flatMap fun i => [d i, c i])[2 * k]? = some (d k) ∧
      ((List.range n).flatMap fun i => [d i, c i])[2 * k + 1]? = some (c k) := by
  intro n
  induction n with
  | zero => intro k hk; exact absurd hk (Nat.not_lt_zero k)
  | succ n ih =>
    intro k hk
    rw [List.range_succ, List.flatMap_append]
    rcases Nat.lt_or_ge k n with h | h
    · constructor
      · rw [List.getElem?_append_left (by rw [range_flatMap_pair_length]; omega)]
        exact (ih k h).1
      · rw [List.getElem?_append_left (by rw [range_flatMap_pair_length]; omega)]
        exact (ih k h).2
    · have hk0 : k = n := by omega
      subst hk0
      have hlen := range_flatMap_pair_length d c k
      constructor
      · rw [List.getElem?_append_right (le_of_eq hlen), hlen, Nat.sub_self]
        rfl
      · rw [List.getElem?_append_right (by rw [hlen]; omega), hlen]
        have h1 : 2 * k + 1 - 2 * k = 1 := by omega
        rw [h1]
        rfl

theorem numLoops_of_edit (id : String) (isRec : Bool) (cnt : Nat) (h : id ≠ "") :
    numLoops id isRec cnt = 1 := by
  unfold numLoops
  simp [h]

theorem numLoops_new_recurrent (cnt : Nat) : numLoops "" true cnt = max 1 cnt := by
  unfold numLoops
  simp

/-! ## C6 — transfer creation and validation -/

/-- C6 counterexample: creating a transfer whose source bank equals its
destination bank ("bankA" on both sides), or whose banks are both unset
(empty strings), does not fail at all — `handleSubmit` has no
`ValidationError` path and emits the two legs in both situations,
contradicting the claim that such creations fail with a
`ValidationError`. -/
theorem c6_validation_counterexample :
    ((handleSubmit equalBanksForm "" FormMode.TRANSFER "bankA" none false 2
        RecurrenceFrequency.MONTHLY none none [] sampleUuid).map
        (fun t => (t.bankId, t.type))
      = [("bankA", TxType.DEBIT), ("bankA", TxType.CREDIT)]) ∧
    ((handleSubmit { equalBanksForm with bankId := "" } "" FormMode.TRANSFER ""
        none false 2 RecurrenceFrequency.MONTHLY none none [] sampleUuid).length = 2) :=
  ⟨rfl, rfl⟩

/-- C6 (amended): creating a transfer never fails — `handleSubmit`
performs no bank validation of its own (the only guards are the form's
`required` selects and the disabled same-bank option in the destination
dropdown, which are UI constraints).  For every form state, including
source = destination and unset (empty) banks, the transfer branch
unconditionally emits both legs of every iteration: the output has
exactly `2 * loops` transactions. -/
theorem c6_transfer_never_fails (fs : FormState) (targetBankId : String)
    (linkedId : Option String) (isRecurrent : Bool) (recurrenceCount : Nat)
    (freq : RecurrenceFrequency) (ini partner : Option Transaction)
    (banks : List Bank) (uuid : Nat → String) (id : String) :
    (handleSubmit fs id FormMode.TRANSFER targetBankId linkedId isRecurrent
        recurrenceCount freq ini partner banks uuid).length =
      2 * numLoops id isRecurrent recurrenceCount := by
  unfold handleSubmit submitIter transferLegs
  exact range_flatMap_pair_length _ _ _

/-! ## C2 — the transfer pair invariant -/

/-- C2 counterexample: with source and destination both set to "bankA"
(reachable in the UI by choosing the destination first and then changing
the source), the emitted transfer pair consists of two legs with the
*same* `bankId`, refuting the claim that every emitted pair has
different `bankId`s. -/
theorem c2_pair_counterexample :
    (handleSubmit equalBanksForm "" FormMode.TRANSFER "bankA" none false 2
        RecurrenceFrequency.MONTHLY none none [] sampleUuid).map (fun t => t.bankId)
      = ["bankA", "bankA"] :=
  rfl

/-- C2 (amended): for every transfer pair emitted by the form's transfer
mode **with distinct source and destination bank selections**, the two
legs have equal value, equal date, opposite types (the first leg DEBIT,
the second CREDIT), different `bankId`s (the source and the destination
respectively), and share the same freshly assigned `linkedId`.  The
distinctness hypothesis is necessary by `c2_pair_counterexample`:
`handleSubmit` itself never compares the two banks. -/
theorem c2_transfer_pair_amended (fs : FormState) (targetBankId : String)
    (linkedId : Option String) (isRecurrent : Bool) (recurrenceCount : Nat)
    (freq : RecurrenceFrequency) (banks : List Bank) (uuid : Nat → String)
    (hne : fs.bankId ≠ targetBankId) :
    ∀ k, k < numLoops "" isRecurrent recurrenceCount →
      (handleSubmit fs "" FormMode.TRANSFER targetBankId linkedId isRecurrent
          recurrenceCount freq none none banks uuid)[2 * k]?
        = some (transferDebitLeg fs targetBankId linkedId freq
            (numLoops "" isRecurrent recurrenceCount) none none banks uuid k) ∧
      (handleSubmit fs "" FormMode.TRANSFER targetBankId linkedId isRecurrent
          recurrenceCount freq none none banks uuid)[2 * k + 1]?
        = some (transferCreditLeg fs targetBankId linkedId freq
            (numLoops "" isRecurrent recurrenceCount) none none banks uuid k) ∧
      (transferDebitLeg fs targetBankId linkedId freq
          (numLoops "" isRecurrent recurrenceCount) none none banks uuid k).value
        = (transferCreditLeg fs targetBankId linkedId freq
            (numLoops "" isRecurrent recurrenceCount) none none banks uuid k).value ∧
      (transferDebitLeg fs targetBankId linkedId freq
          (numLoops "" isRecurrent recurrenceCount) none none banks uuid k).date
        = (transferCreditLeg fs targetBankId linkedId freq
            (numLoops "" isRecurrent recurrenceCount) none none banks uuid k).date ∧
      (transferDebitLeg fs targetBankId linkedId freq
          (numLoops "" isRecurrent recurrenceCount) none none banks uuid k).type
        = TxType.DEBIT ∧
      (transferCreditLeg fs targetBankId linkedId freq
          (numLoops "" isRecurrent recurrenceCount) none none banks uuid k).type
        = TxType.CREDIT ∧
      (transferDebitLeg fs targetBankId linkedId freq
          (numLoops "" isRecurrent recurrenceCount) none none banks uuid k).bankId
        = fs.bankId ∧
      (transferCreditLeg fs targetBankId linkedId freq
          (numLoops "" isRecurrent recurrenceCount) none none banks uuid k).bankId
        = targetBankId ∧
      (transferDebitLeg fs targetBankId linkedId freq
          (numLoops "" isRecurrent recurrenceCount) none none banks uuid k).bankId
        ≠ (transferCreditLeg fs targetBankId linkedId freq
            (numLoops "" isRecurrent recurrenceCount) none none banks uuid k).bankId ∧
      (transferDebitLeg fs targetBankId linkedId freq
          (numLoops "" isRecurrent recurrenceCount) none none banks uuid k).linkedId
        = (transferCreditLeg fs targetBankId linkedId freq
            (numLoops "" isRecurrent recurrenceCount) none none banks uuid k).linkedId ∧
      (transferDebitLeg fs targetBankId linkedId freq
          (numLoops "" isRecurrent recurrenceCount) none none banks uuid k).linkedId
        = some (currentLinkedIdOf linkedId uuid k) := by
  intro k hk
  have hidx := range_flatMap_pair_getElem
    (transferDebitLeg fs targetBankId linkedId freq
      (numLoops "" isRecurrent recurrenceCount) none none banks uuid)
    (transferCreditLeg fs targetBankId linkedId freq
      (numLoops "" isRecurrent recurrenceCount) none none banks uuid)
    (numLoops "" isRecurrent recurrenceCount) k hk
  refine ⟨?_, ?_, rfl, rfl, rfl, rfl, rfl, rfl, hne, rfl, rfl⟩
  · unfold handleSubmit submitIter transferLegs
    exact hidx.1
  · unfold handleSubmit submitIter transferLegs
    exact hidx.2

/-- Witness for `c2_transfer_pair_amended`: the first pair of a transfer
from "bankB" to "bankA". -/
theorem c2_transfer_pair_witness :
    (handleSubmit equalBanksFormB "" FormMode.TRANSFER "bankA" none false 2
        RecurrenceFrequency.MONTHLY none none [] sampleUuid)[2 * 0]?
      = some (transferDebitLeg equalBanksFormB "bankA" none RecurrenceFrequency.MONTHLY
          (numLoops "" false 2) none none [] sampleUuid 0) ∧
    (transferDebitLeg equalBanksFormB "bankA" none RecurrenceFrequency.MONTHLY
        (numLoops "" false 2) none none [] sampleUuid 0).bankId
      ≠ (transferCreditLeg equalBanksFormB "bankA" none RecurrenceFrequency.MONTHLY
          (numLoops "" false 2) none none [] sampleUuid 0).bankId := by
  have h := c2_transfer_pair_amended equalBanksFormB "bankA" none false 2
    RecurrenceFrequency.MONTHLY [] sampleUuid (by decide) 0 (by decide)
  exact ⟨h.1, h.2.2.2.2.2.2.2.2.1⟩

/-! ## C7 — editing a transfer leg whose counterpart is missing -/

/-- C7 counterexample: editing the orphaned leg `orphanLeg` (whose
counterpart cannot be resolved, `partnerData = none`) emits **two**
transactions, not one — the second carries an empty id (so the store
inserts it as a brand-new transaction) and the shared `linkedId "L"`.
This refutes the claim that the edit proceeds on the single leg only
with no new counterpart transaction emitted. -/
theorem c7_orphaned_edit_counterexample :
    (handleSubmit orphanEditForm "legX" FormMode.TRANSFER "" (some "L") false 2
        RecurrenceFrequency.MONTHLY (some orphanLeg) none [] sampleUuid).map
        (fun t => (t.id, t.linkedId))
      = [("legX", some "L"), ("", some "L")] :=
  rfl

/-- C7 (amended): when one leg of a transfer is edited and its
counterpart cannot be resolved, the submission still emits **both**
legs: the leg matching the edited transaction's type keeps its id, while
the missing counterpart is emitted with an empty id — it is therefore
recreated as a new transaction on save (the store assigns ids to
empty-id rows), and no warning is surfaced. -/
theorem c7_orphaned_edit_amended (fs : FormState) (t0 : Transaction) (l : String)
    (targetBankId : String) (isRec : Bool) (cnt : Nat) (freq : RecurrenceFrequency)
    (banks : List Bank) (uuid : Nat → String)
    (hid : t0.id ≠ "") (hlink : t0.linkedId = some l) :
    handleSubmit fs t0.id FormMode.TRANSFER targetBankId (some l) isRec cnt freq
        (some t0) none banks uuid
      = [transferDebitLeg fs targetBankId (some l) freq 1 (some t0) none banks uuid 0,
         transferCreditLeg fs targetBankId (some l) freq 1 (some t0) none banks uuid 0] ∧
    (transferDebitLeg fs targetBankId (some l) freq 1 (some t0) none banks uuid 0).linkedId
      = some l ∧
    (transferCreditLeg fs targetBankId (some l) freq 1 (some t0) none banks uuid 0).linkedId
      = some l ∧
    (t0.type = TxType.DEBIT →
      (transferDebitLeg fs targetBankId (some l) freq 1 (some t0) none banks uuid 0).id
          = t0.id ∧
      (transferCreditLeg fs targetBankId (some l) freq 1 (some t0) none banks uuid 0).id
          = "") ∧
    (t0.type = TxType.CREDIT →
      (transferCreditLeg fs targetBankId (some l) freq 1 (some t0) none banks uuid 0).id
          = t0.id ∧
      (transferDebitLeg fs targetBankId (some l) freq 1 (some t0) none banks uuid 0).id
          = "") := by
  have hloops : numLoops t0.id isRec cnt = 1 := numLoops_of_edit _ _ _ hid
  refine ⟨?_, rfl, rfl, ?_, ?_⟩
  · unfold handleSubmit
    rw [hloops]
    rfl
  · intro hty
    constructor
    · simp [transferDebitLeg, legIds, hlink, hty, partnerLegId]
    · simp [transferCreditLeg, legIds, hlink, hty, partnerLegId]
  · intro hty
    have hne : ¬ t0.type = TxType.DEBIT := by
      rw [hty]
      intro hcon
      exact TxType.noConfusion hcon
    constructor
    · simp [transferCreditLeg, legIds, hlink, hne, partnerLegId]
    · simp [transferDebitLeg, legIds, hlink, hne, partnerLegId]

/-- Witness for `c7_orphaned_edit_amended`: the concrete orphaned edit of
`orphanLeg`. -/
theorem c7_orphaned_edit_witness :
    handleSubmit orphanEditForm orphanLeg.id FormMode.TRANSFER "" (some "L") false 2
        RecurrenceFrequency.MONTHLY (some orphanLeg) none [] sampleUuid
      = [transferDebitLeg orphanEditForm "" (some "L") RecurrenceFrequency.MONTHLY 1
           (some orphanLeg) none [] sampleUuid 0,
         transferCreditLeg orphanEditForm "" (some "L") RecurrenceFrequency.MONTHLY 1
           (some orphanLeg) none [] sampleUuid 0] ∧
    (transferCreditLeg orphanEditForm "" (some "L") RecurrenceFrequency.MONTHLY 1
        (some orphanLeg) none [] sampleUuid 0).id = "" := by
  have h := c7_orphaned_edit_amended orphanEditForm orphanLeg "L" "" false 2
    RecurrenceFrequency.MONTHLY [] sampleUuid (by decide) (by decide)
  exact ⟨h.1, (h.2.2.2.1 (by decide)).2⟩

/-! ## C9 — non-negativity of produced transaction values -/

/-- C9 counterexample: the transaction form does not bound its numeric
value input below, so submitting with value `-5` emits a transaction
whose `value` is negative, refuting the claim that every transaction
produced by the form has `value ≥ 0`. -/
theorem c9_nonneg_counterexample :
    ((handleSubmit negativeValueForm "" FormMode.DEFAULT "" none false 1
        RecurrenceFrequency.MONTHLY none none [] sampleUuid).map (fun t => t.value)
      = [-5]) ∧ ¬ (0 : Int) ≤ -5 :=
  ⟨rfl, by decide⟩

/-- C9 (amended): every transaction produced by CSV import parsing has
`value ≥ 0` (for **all** possible outputs of `parseMoney` on the debit
and credit cells, the selected value is the credit amount only when it
is positive, else the debit amount only when it is positive, else `0`);
the transaction form, by contrast, enforces no lower bound — every
transaction it emits carries exactly the form's `value` field, which may
be negative. -/
theorem c9_value_amended :
    (∀ debitVal creditVal : Int, 0 ≤ (csvValueType debitVal creditVal).1) ∧
    (∀ (fs : FormState) (id : String) (mode : FormMode) (targetBankId : String)
       (linkedId : Option String) (isRec : Bool) (cnt : Nat)
       (freq : RecurrenceFrequency) (ini partner : Option Transaction)
       (banks : List Bank) (uuid : Nat → String) (t : Transaction),
      t ∈ handleSubmit fs id mode targetBankId linkedId isRec cnt freq ini partner banks uuid →
      t.value = fs.value) := by
  constructor
  · intro dv cv
    unfold csvValueType
    split_ifs with h1 h2 <;> omega
  · intro fs id mode targetBankId linkedId isRec cnt freq ini partner banks uuid t ht
    unfold handleSubmit at ht
    rw [List.mem_flatMap] at ht
    obtain ⟨i, _, hmem⟩ := ht
    cases mode with
    | TRANSFER =>
      simp only [submitIter, transferLegs, List.mem_cons, List.not_mem_nil, or_false] at hmem
      rcases hmem with h | h
      · rw [h]
        rfl
      · rw [h]
        rfl
    | DEFAULT =>
      simp only [submitIter, defaultLeg, List.mem_cons, List.not_mem_nil, or_false] at hmem
      rw [hmem]
      rfl

/-- Witness for `c9_value_amended`: the CSV bound at parsed cells
`(-3, -7)` and the form part at the concrete negative-value submission. -/
theorem c9_value_amended_witness :
    (0 ≤ (csvValueType (-3) (-7)).1) ∧
    (defaultTx negativeValueForm "" RecurrenceFrequency.MONTHLY 1 0).value
      = negativeValueForm.value := by
  refine ⟨c9_value_amended.1 (-3) (-7), ?_⟩
  exact c9_value_amended.2 negativeValueForm "" FormMode.DEFAULT "" none false 1
    RecurrenceFrequency.MONTHLY none none [] sampleUuid _ (by decide)

/-! ## C3 — recurrence expansion -/

/-- C3: for every template form state and count `N ≥ 2`, the expansion
emits exactly `N` instances; instance `i` (0-based) carries the sequence
suffix `" (i+1/N)"` on its description, has its date advanced by the
frequency rule from the template's date (`calculateDate` applied with
step `i`), keeps the template's status for the first instance and is
forced to PENDING for every later one.  For `N ≤ 1` the single original
transaction is emitted unmodified, with no suffix. -/
theorem c3_recurrence_expansion (fs : FormState) (freq : RecurrenceFrequency) (N : Nat)
    (banks : List Bank) (uuid : Nat → String) :
    (2 ≤ N →
      (handleSubmit fs "" FormMode.DEFAULT "" none true N freq none none banks uuid).length
          = N ∧
      (∀ i, i < N →
        (handleSubmit fs "" FormMode.DEFAULT "" none true N freq none none banks uuid)[i]?
          = some (defaultTx fs "" freq N i) ∧
        (defaultTx fs "" freq N i).description
          = fs.description ++ " " ++ ("(" ++ toString (i + 1) ++ "/" ++ toString N ++ ")") ∧
        (defaultTx fs "" freq N i).date
          = (if i = 0 then fs.date else calculateDate fs.date i freq) ∧
        (0 < i → (defaultTx fs "" freq N i).status = TxStatus.PENDING) ∧
        (i = 0 → (defaultTx fs "" freq N i).status = fs.status))) ∧
    (N ≤ 1 →
      handleSubmit fs "" FormMode.DEFAULT "" none true N freq none none banks uuid
        = [{ id := "", date := fs.date, description := fs.description,
             docNumber := fs.docNumber, value := fs.value, type := fs.type,
             status := fs.status, bankId := fs.bankId, categoryId := fs.categoryId,
             participantId := fs.participantId, costCenterId := fs.costCenterId,
             walletId := fs.walletId, linkedId := none }]) := by
  have hsub : ∀ loops, (List.range loops).flatMap
      (submitIter fs "" FormMode.DEFAULT "" none freq loops none none banks uuid)
      = (List.range loops).map (defaultTx fs "" freq loops) := by
    intro loops
    exact flatMap_singleton_eq_map _ _
  constructor
  · intro hN
    have hloops : numLoops "" true N = N := by
      rw [numLoops_new_recurrent]
      omega
    constructor
    · unfold handleSubmit
      rw [hloops, hsub N, List.length_map, List.length_range]
    · intro i hi
      refine ⟨?_, ?_, ?_, ?_, ?_⟩
      · unfold handleSubmit
        rw [hloops, hsub N, List.getElem?_map, List.getElem?_range hi]
        rfl
      · have h1 : 1 < N := by omega
        unfold defaultTx parenSeq
        simp [h1]
      · unfold defaultTx recurDate
        cases i with
        | zero => simp
        | succ n => simp
      · intro hpos
        unfold defaultTx recurStatus
        simp [hpos]
      · intro h0
        subst h0
        rfl
  · intro hN
    have hloops : numLoops "" true N = 1 := by
      rw [numLoops_new_recurrent]
      omega
    unfold handleSubmit
    rw [hloops, hsub 1]
    rfl

/-- Witness for `c3_recurrence_expansion`: the weekly expansion of
`recurrenceForm` with count 3 (second instance), and the unmodified
single emission with count 1. -/
theorem c3_recurrence_expansion_witness :
    (handleSubmit recurrenceForm "" FormMode.DEFAULT "" none true 3
        RecurrenceFrequency.WEEKLY none none [] sampleUuid).length = 3 ∧
    (handleSubmit recurrenceForm "" FormMode.DEFAULT "" none true 3
        RecurrenceFrequency.WEEKLY none none [] sampleUuid)[1]?
      = some (defaultTx recurrenceForm "" RecurrenceFrequency.WEEKLY 3 1) ∧
    (0 < 1 → (defaultTx recurrenceForm "" RecurrenceFrequency.WEEKLY 3 1).status
      = TxStatus.PENDING) ∧
    handleSubmit recurrenceForm "" FormMode.DEFAULT "" none true 1
        RecurrenceFrequency.WEEKLY none none [] sampleUuid
      = [{ id := "", date := recurrenceForm.date, description := recurrenceForm.description,
           docNumber := recurrenceForm.docNumber, value := recurrenceForm.value,
           type := recurrenceForm.type, status := recurrenceForm.status,
           bankId := recurrenceForm.bankId, categoryId := recurrenceForm.categoryId,
           participantId := recurrenceForm.participantId,
           costCenterId := recurrenceForm.costCenterId,
           walletId := recurrenceForm.walletId, linkedId := none }] := by
  have h3 := (c3_recurrence_expansion recurrenceForm RecurrenceFrequency.WEEKLY 3 []
    sampleUuid).1 (by omega)
  have h1 := (c3_recurrence_expansion recurrenceForm RecurrenceFrequency.WEEKLY 1 []
    sampleUuid).2 (by omega)
  exact ⟨h3.1, (h3.2 1 (by omega)).1, (h3.2 1 (by omega)).2.2.2.1, h1⟩

/-! ## C8 — the YEARLY date-advance rule -/

theorem daysInMonth_ge (y m : Nat) : 28 ≤ daysInMonth y m := by
  unfold daysInMonth
  split_ifs <;> omega

theorem daysInMonth_le (y m : Nat) : daysInMonth y m ≤ 31 := by
  unfold daysInMonth
  split_ifs <;> omega

theorem daysInMonth_ne_two (y y2 m : Nat) (h : m ≠ 2) :
    daysInMonth y m = daysInMonth y2 m := by
  unfold daysInMonth
  simp [h]

theorem daysInMonth_two (y : Nat) : daysInMonth y 2 = 28 ∨ daysInMonth y 2 = 29 := by
  unfold daysInMonth
  split_ifs <;> omega

theorem normDaysFuel_step_le (fuel y m d : Nat) (h : d ≤ daysInMonth y m) :
    normDaysFuel (fuel + 1) y m d = ⟨y, m, d⟩ := by
  simp only [normDaysFuel]
  rw [if_pos h]

theorem normDaysFuel_step_gt (fuel y m d : Nat) (h : ¬ d ≤ daysInMonth y m)
    (h12 : ¬ 12 ≤ m) :
    normDaysFuel (fuel + 1) y m d = normDaysFuel fuel y (m + 1) (d - daysInMonth y m) := by
  simp only [normDaysFuel]
  rw [if_neg h, if_neg h12]

theorem normDays_eq_self (y m d : Nat) (hd1 : 1 ≤ d) (hd2 : d ≤ daysInMonth y m) :
    normDays y m d = ⟨y, m, d⟩ := by
  unfold normDays
  obtain ⟨e, rfl⟩ : ∃ e, d = e + 1 := ⟨d - 1, by omega⟩
  exact normDaysFuel_step_le e y m (e + 1) hd2

theorem jsDate_valid (y m d : Nat) (hm1 : 1 ≤ m) (hm2 : m ≤ 12) (hd1 : 1 ≤ d)
    (hd2 : d ≤ daysInMonth y m) : jsDate y (m - 1) d = ⟨y, m, d⟩ := by
  unfold jsDate
  have h1 : (m - 1) / 12 = 0 := Nat.div_eq_of_lt (by omega)
  have h2 : (m - 1) % 12 = m - 1 := Nat.mod_eq_of_lt (by omega)
  rw [h1, h2, Nat.add_zero]
  have h3 : m - 1 + 1 = m := by omega
  rw [h3]
  exact normDays_eq_self y m d hd1 hd2

/-- C8 counterexample: the code advances a Feb 29 template by one year to
**March 1** of the non-leap target year (2024-02-29 → 2025-03-01), not to
Feb 28 as the claim's clamp rule states. -/
theorem c8_yearly_counterexample :
    calculateDate ⟨2024, 2, 29⟩ 1 RecurrenceFrequency.YEARLY = ⟨2025, 3, 1⟩ ∧
    (⟨2025, 3, 1⟩ : CalDate) ≠ ⟨2025, 2, 28⟩ :=
  ⟨rfl, by decide⟩

/-- C8 (amended): for every valid template date and step `i ≥ 1`, the
YEARLY frequency advances the year by `i` keeping month and day whenever
the resulting day exists in the target month; when it does not — which
happens exactly for a Feb 29 template and a non-leap target year — the
date **rolls over to March 1** of the target year (there is no clamp to
Feb 28; YEARLY does not apply MONTHLY's clamp rule). -/
theorem calculateDate_yearly (sd : CalDate) (i : Nat) :
    calculateDate sd i RecurrenceFrequency.YEARLY
      = jsDate ((jsDate sd.y (sd.m - 1) sd.d).y + i)
          ((jsDate sd.y (sd.m - 1) sd.d).m - 1) (jsDate sd.y (sd.m - 1) sd.d).d :=
  rfl

theorem c8_yearly_amended (y m d i : Nat) (hm1 : 1 ≤ m) (hm2 : m ≤ 12) (hd1 : 1 ≤ d)
    (hd2 : d ≤ daysInMonth y m) (_hi : 1 ≤ i) :
    (d ≤ daysInMonth (y + i) m →
      calculateDate ⟨y, m, d⟩ i RecurrenceFrequency.YEARLY = ⟨y + i, m, d⟩) ∧
    (daysInMonth (y + i) m < d →
      m = 2 ∧ d = 29 ∧
      calculateDate ⟨y, m, d⟩ i RecurrenceFrequency.YEARLY = ⟨y + i, 3, 1⟩) := by
  constructor
  · intro hle
    rw [calculateDate_yearly]
    rw [show jsDate (⟨y, m, d⟩ : CalDate).y ((⟨y, m, d⟩ : CalDate).m - 1)
        (⟨y, m, d⟩ : CalDate).d = ⟨y, m, d⟩ from jsDate_valid y m d hm1 hm2 hd1 hd2]
    exact jsDate_valid (y + i) m d hm1 hm2 hd1 hle
  · intro hlt
    have hmeq : m = 2 := by
      by_contra hne
      have heq := daysInMonth_ne_two y (y + i) m hne
      omega
    subst hmeq
    have hdim2 := daysInMonth_two y
    have hdim2' := daysInMonth_two (y + i)
    have h28 : daysInMonth (y + i) 2 = 28 := by omega
    have hd29 : d = 29 := by omega
    subst hd29
    refine ⟨rfl, rfl, ?_⟩
    rw [calculateDate_yearly]
    rw [show jsDate (⟨y, 2, 29⟩ : CalDate).y ((⟨y, 2, 29⟩ : CalDate).m - 1)
        (⟨y, 2, 29⟩ : CalDate).d = ⟨y, 2, 29⟩ from
      jsDate_valid y 2 29 (by omega) (by omega) (by omega) hd2]
    show jsDate (y + i) (2 - 1) 29 = CalDate.mk (y + i) 3 1
    have e0 : jsDate (y + i) (2 - 1) 29 = normDays (y + i) 2 29 := by
      unfold jsDate
      norm_num
    rw [e0]
    unfold normDays
    have e1 : normDaysFuel 29 (y + i) 2 29
        = normDaysFuel 28 (y + i) 3 (29 - daysInMonth (y + i) 2) :=
      normDaysFuel_step_gt 28 (y + i) 2 29 (by omega) (by omega)
    rw [e1, h28]
    have e2 : normDaysFuel 28 (y + i) 3 (29 - 28) = ⟨y + i, 3, 29 - 28⟩ :=
      normDaysFuel_step_le 27 (y + i) 3 (29 - 28)
        (by have := daysInMonth_ge (y + i) 3; omega)
    rw [e2]

/-- Witness for `c8_yearly_amended`: a plain YEARLY advance
(2023-05-10 + 2 years) and the Feb 29 rollover (2024-02-29 + 1 year). -/
theorem c8_yearly_amended_witness :
    calculateDate ⟨2023, 5, 10⟩ 2 RecurrenceFrequency.YEARLY = ⟨2023 + 2, 5, 10⟩ ∧
    calculateDate ⟨2024, 2, 29⟩ 1 RecurrenceFrequency.YEARLY = ⟨2024 + 1, 3, 1⟩ := by
  have h1 := (c8_yearly_amended 2023 5 10 2 (by omega) (by omega) (by omega)
    (by decide) (by omega)).1 (by decide)
  have h2 := (c8_yearly_amended 2024 2 29 1 (by omega) (by omega) (by omega)
    (by decide) (by omega)).2 (by decide)
  exact ⟨h1, h2.2.2⟩

/-! ## C1 — the Balance Engine contract -/

theorem sumSigned_nil : sumSigned [] = 0 := rfl

theorem sumSigned_cons (t : Transaction) (l : List Transaction) :
    sumSigned (t :: l) = signedValue t + sumSigned l := by
  unfold sumSigned
  simp

theorem scanBal_length (l : List Transaction) : ∀ run : Int, (scanBal run l).length = l.length := by
  induction l with
  | nil => intro run; rfl
  | cons t rest ih => intro run; simp [scanBal, ih]

theorem scanBal_keys (l : List Transaction) :
    ∀ run : Int, (scanBal run l).map Prod.fst = l.map Transaction.id := by
  induction l with
  | nil => intro run; rfl
  | cons t rest ih => intro run; simp [scanBal, ih]

theorem scanBal_getElem (l : List Transaction) :
    ∀ (run : Int) (k : Nat),
      (scanBal run l)[k]?
        = (l[k]?).map (fun t => (t.id, run + sumSigned (l.take (k + 1)))) := by
  induction l with
  | nil => intro run k; simp [scanBal]
  | cons t rest ih =>
    intro run k
    cases k with
    | zero => simp [scanBal, sumSigned_cons, sumSigned_nil]
    | succ n =>
      simp only [scanBal, List.getElem?_cons_succ]
      rw [ih (run + signedValue t) n]
      cases hr : rest[n]? with
      | none => simp
      | some u => simp [sumSigned_cons, Int.add_assoc]

theorem lookup_eq_some_of_nodup :
    ∀ (l : List (String × Int)), (l.map Prod.fst).Nodup →
      ∀ (k : String) (v : Int), (k, v) ∈ l → l.lookup k = some v := by
  intro l
  induction l with
  | nil => intro _ k v hm; cases hm
  | cons p rest ih =>
    intro hnd k v hm
    obtain ⟨k1, v1⟩ := p
    rw [List.map_cons] at hnd
    have hnd' := List.nodup_cons.mp hnd
    rw [List.lookup_cons]
    rcases List.mem_cons.mp hm with he | hm'
    · obtain ⟨rfl, rfl⟩ := Prod.mk.injEq .. |>.mp he
      simp
    · have hk1 : k ≠ k1 := by
        intro hcon
        subst hcon
        exact hnd'.1 (List.mem_map.mpr ⟨(k, v), hm', rfl⟩)
      have hbeq : (k == k1) = false := beq_false_of_ne hk1
      rw [hbeq]
      exact ih hnd'.2 k v hm'

theorem lookup_isSome_iff :
    ∀ (l : List (String × Int)) (k : String),
      (l.lookup k).isSome = true ↔ k ∈ l.map Prod.fst := by
  intro l
  induction l with
  | nil => intro k; simp
  | cons p rest ih =>
    intro k
    obtain ⟨k1, v1⟩ := p
    rw [List.lookup_cons]
    by_cases hk : k = k1
    · subst hk
      simp
    · have hbeq : (k == k1) = false := beq_false_of_ne hk
      rw [hbeq]
      simp [hk, ih]

theorem objGet_eq_some_of_nodup (l : List (String × Int))
    (h : (l.map Prod.fst).Nodup) (k : String) (v : Int) (hm : (k, v) ∈ l) :
    objGet l k = some v := by
  unfold objGet
  refine lookup_eq_some_of_nodup l.reverse ?_ k v (List.mem_reverse.mpr hm)
  rw [List.map_reverse]
  exact List.nodup_reverse.mpr h

theorem objGet_isSome_iff (l : List (String × Int)) (k : String) :
    (objGet l k).isSome = true ↔ k ∈ l.map Prod.fst := by
  unfold objGet
  rw [lookup_isSome_iff, List.map_reverse, List.mem_reverse]

/-- C1: the Balance Engine contract of `globalBalanceMap`.  Provided the
candidate transactions have pairwise distinct ids on their PAID subset
(the data model guarantees unique ids), the balance map has an entry
exactly for each PAID candidate (PENDING transactions never receive
one), and — with the PAID subset sorted by date ascending, ties broken
by id ascending — the entry of the transaction at position `k` of the
sorted sequence equals the chosen seed plus the signed running sum over
the sorted prefix up to and including it. -/
theorem c1_balance_map_contract (txns : List Transaction) (selectedBankId : String)
    (prevTotal : Int) (prevByBank : List (String × Int))
    (hnd : ((paidOnly txns).map Transaction.id).Nodup) :
    (∀ t ∈ txns, t.status = TxStatus.PAID →
      (objGet (globalBalanceMap txns selectedBankId prevTotal prevByBank) t.id).isSome
        = true) ∧
    (∀ k : String,
      (objGet (globalBalanceMap txns selectedBankId prevTotal prevByBank) k).isSome = true →
      ∃ t ∈ txns, t.status = TxStatus.PAID ∧ t.id = k) ∧
    (∀ k : Nat, ∀ hk : k < (sortedPaid txns).length,
      objGet (globalBalanceMap txns selectedBankId prevTotal prevByBank)
          (((sortedPaid txns).get ⟨k, hk⟩).id)
        = some (chooseSeed selectedBankId prevTotal prevByBank
            + sumSigned ((sortedPaid txns).take (k + 1)))) := by
  have hperm : List.Perm (sortedPaid txns) (paidOnly txns) :=
    List.perm_insertionSort txLE (paidOnly txns)
  have hndSorted : ((sortedPaid txns).map Transaction.id).Nodup :=
    ((hperm.map Transaction.id).nodup_iff).mpr hnd
  have hkeys : (globalBalanceMap txns selectedBankId prevTotal prevByBank).map Prod.fst
      = (sortedPaid txns).map Transaction.id := scanBal_keys (sortedPaid txns) _
  have hndKeys : ((globalBalanceMap txns selectedBankId prevTotal prevByBank).map
      Prod.fst).Nodup := by
    rw [hkeys]
    exact hndSorted
  refine ⟨?_, ?_, ?_⟩
  · intro t ht hpaid
    rw [objGet_isSome_iff, hkeys]
    have hmem : t ∈ paidOnly txns := by
      unfold paidOnly
      rw [List.mem_filter]
      exact ⟨ht, by simp [hpaid]⟩
    exact List.mem_map.mpr ⟨t, hperm.mem_iff.mpr hmem, rfl⟩
  · intro k hk
    rw [objGet_isSome_iff, hkeys] at hk
    obtain ⟨t, htmem, rfl⟩ := List.mem_map.mp hk
    have hmem : t ∈ paidOnly txns := hperm.mem_iff.mp htmem
    unfold paidOnly at hmem
    rw [List.mem_filter] at hmem
    exact ⟨t, hmem.1, by simpa using hmem.2, rfl⟩
  · intro k hk
    have hget := scanBal_getElem (sortedPaid txns)
      (chooseSeed selectedBankId prevTotal prevByBank) k
    simp only [List.getElem?_eq_getElem hk, Option.map_some'] at hget
    have hmem : (((sortedPaid txns).get ⟨k, hk⟩).id,
        chooseSeed selectedBankId prevTotal prevByBank
          + sumSigned ((sortedPaid txns).take (k + 1)))
        ∈ globalBalanceMap txns selectedBankId prevTotal prevByBank :=
      List.getElem?_mem hget
    exact objGet_eq_some_of_nodup _ hndKeys _ _ hmem

/-- Witness for `c1_balance_map_contract`: the spec's seeded scenario —
seed 1000, a PAID DEBIT of 200 on Jan 03 and a PAID CREDIT of 500 on
Jan 05 (plus a PENDING entry): the balances are 800 and 1300, and the
PENDING transaction has no entry. -/
theorem c1_balance_map_witness :
    objGet (globalBalanceMap balanceScenario "" 1000 []) "jan03" = some 800 ∧
    objGet (globalBalanceMap balanceScenario "" 1000 []) "jan05" = some 1300 ∧
    (objGet (globalBalanceMap balanceScenario "" 1000 []) "pend").isSome = false := by
  have h := c1_balance_map_contract balanceScenario "" 1000 [] (by decide)
  have h0 := h.2.2 0 (by decide)
  have h1 := h.2.2 1 (by decide)
  exact ⟨h0, h1, by decide⟩

/-! ## C4 — the cash-flow ladder invariant -/

theorem buildRows_cons (run : Int) (p : PeriodAcc) (rest : List PeriodAcc) :
    buildRows run (p :: rest)
      = { key := p.key, initial := run, income := p.income, expense := p.expense,
          operational := p.income - p.expense, final := run + (p.income - p.expense),
          txs := p.txs } :: buildRows (run + (p.income - p.expense)) rest :=
  rfl

theorem buildRows_mem (ps : List PeriodAcc) :
    ∀ (run : Int) (r : CashFlowRow), r ∈ buildRows run ps →
      r.operational = r.income - r.expense ∧ r.final = r.initial + r.operational := by
  induction ps with
  | nil => intro run r hr; cases hr
  | cons p rest ih =>
    intro run r hr
    rw [buildRows_cons] at hr
    rcases List.mem_cons.mp hr with he | hm
    · subst he
      exact ⟨rfl, rfl⟩
    · exact ih _ r hm

theorem buildRows_head (ps : List PeriodAcc) (run : Int)
    (h : 0 < (buildRows run ps).length) :
    ((buildRows run ps).get ⟨0, h⟩).initial = run := by
  cases ps with
  | nil => simp [buildRows] at h
  | cons p rest => rfl

theorem buildRows_chain (ps : List PeriodAcc) :
    ∀ (run : Int) (k : Nat) (h : k + 1 < (buildRows run ps).length),
      ((buildRows run ps).get ⟨k + 1, h⟩).initial
        = ((buildRows run ps).get ⟨k, Nat.lt_of_succ_lt h⟩).final := by
  induction ps with
  | nil => intro run k h; simp [buildRows] at h
  | cons p rest ih =>
    intro run k h
    cases k with
    | zero =>
      have h' : 0 < (buildRows (run + (p.income - p.expense)) rest).length := by
        rw [buildRows_cons] at h
        simpa using Nat.lt_of_succ_lt_succ h
      exact buildRows_head rest (run + (p.income - p.expense)) h'
    | succ n =>
      have h' : n + 1 < (buildRows (run + (p.income - p.expense)) rest).length := by
        rw [buildRows_cons] at h
        simpa using Nat.lt_of_succ_lt_succ h
      exact ih (run + (p.income - p.expense)) n h'

/-- C4: in every produced cash-flow period sequence, each row satisfies
`operational = income − expense` and `closing = opening + operational`,
consecutive rows are chained (`row[k+1].opening = row[k].closing`), and
the first row's opening equals the historical seed balance. -/
theorem c4_cash_flow_ladder (allTransactions : List Transaction)
    (startDate endDate : Option CalDate) (gran : Granularity)
    (selectedBankIds : List String) :
    (∀ r ∈ cashFlowData allTransactions startDate endDate gran selectedBankIds,
      r.operational = r.income - r.expense ∧ r.final = r.initial + r.operational) ∧
    (∀ (k : Nat)
      (h : k + 1 < (cashFlowData allTransactions startDate endDate gran
        selectedBankIds).length),
      ((cashFlowData allTransactions startDate endDate gran selectedBankIds).get
          ⟨k + 1, h⟩).initial
        = ((cashFlowData allTransactions startDate endDate gran selectedBankIds).get
            ⟨k, Nat.lt_of_succ_lt h⟩).final) ∧
    (∀ h : 0 < (cashFlowData allTransactions startDate endDate gran
        selectedBankIds).length,
      ((cashFlowData allTransactions startDate endDate gran selectedBankIds).get
          ⟨0, h⟩).initial
        = historicalBalance allTransactions startDate selectedBankIds) := by
  refine ⟨?_, ?_, ?_⟩
  · intro r hr
    exact buildRows_mem _ _ r hr
  · intro k h
    exact buildRows_chain _ _ k h
  · intro h
    exact buildRows_head _ _ h

/-- Witness for `c4_cash_flow_ladder`: the two-period ladder of
`c4Ledger` (January income 100, February expense 40). -/
theorem c4_cash_flow_ladder_witness :
    ((cashFlowData c4Ledger (some ⟨2024, 1, 1⟩) none Granularity.MONTHLY ["b"]).get
        ⟨1, by decide⟩).initial
      = ((cashFlowData c4Ledger (some ⟨2024, 1, 1⟩) none Granularity.MONTHLY ["b"]).get
          ⟨0, by decide⟩).final ∧
    ((cashFlowData c4Ledger (some ⟨2024, 1, 1⟩) none Granularity.MONTHLY ["b"]).get
        ⟨0, by decide⟩).initial
      = historicalBalance c4Ledger (some ⟨2024, 1, 1⟩) ["b"] := by
  have h := c4_cash_flow_ladder c4Ledger (some ⟨2024, 1, 1⟩) none Granularity.MONTHLY ["b"]
  exact ⟨h.2.1 0 (by decide), h.2.2 (by decide)⟩

/-! ## C5 — the cash-flow opening balance and the entire ledger -/

/-- C5: the cash-flow tab feeds `CashFlowReport` the *already
date-filtered* fetch result (`getTransactions({startDate, ...})`), so
the component's "historical" opening balance is computed over
transactions dated on or after the range start and is 0, not the true
balance over the entire ledger.  Concretely: `c5Ledger` holds a PAID
CREDIT of 100 on bank "b" dated 2024-01-01; with the range starting
2024-02-01 the first (and only) period row opens at 0, while the sum of
signed PAID values over the entire ledger before the range start
(`specHistoricalSeed`, the claim's reference value, which the service's
own `getBalancesBefore` also computes) is 100. -/
theorem c5_opening_balance_bug :
    ((cashFlowData (getTransactionsLocal c5Filters c5Ledger) (some ⟨2024, 2, 1⟩) none
        Granularity.MONTHLY ["b"]).map (fun r => r.initial) = [0]) ∧
    specHistoricalSeed c5Ledger ⟨2024, 2, 1⟩ ["b"] = 100 ∧
    balancesBeforeTotal c5Ledger ⟨2024, 2, 1⟩ "" "" = 100 ∧
    (0 : Int) ≠ 100 := by
  refine ⟨by decide, by decide, by decide, by decide⟩

/-! ## C10 — dashboard summary vs per-bank balances -/

theorem summary_foldl_balance (l : List Transaction) :
    ∀ acc : SummaryAcc, (l.foldl summaryStep acc).balance = acc.balance + sumSigned (paidOnly l) := by
  induction l with
  | nil => intro acc; simp [paidOnly, sumSigned]
  | cons t rest ih =>
    intro acc
    rw [List.foldl_cons, ih]
    cases ht : t.type <;> cases hs : t.status <;>
      simp [summaryStep, paidOnly, List.filter_cons, ht, hs, sumSigned_cons, signedValue] <;>
      omega

theorem summary_balance (txns : List Transaction) :
    (summary txns).balance = sumSigned (paidOnly txns) := by
  unfold summary
  rw [summary_foldl_balance]
  simp

theorem mapGet_set_self (m : List (String × Int)) (k : String) (v : Int) :
    mapGet (mapSet m k v) k = v := by
  induction m with
  | nil => simp [mapSet, mapGet, List.lookup_cons]
  | cons p rest ih =>
    obtain ⟨k1, v1⟩ := p
    by_cases h : k1 = k
    · subst h
      simp [mapSet, mapGet, List.lookup_cons]
    · have hbeq : (k == k1) = false := beq_false_of_ne (fun hc => h hc.symm)
      simp only [mapSet, if_neg h, mapGet, List.lookup_cons, hbeq]
      exact ih

theorem mapGet_set_other (m : List (String × Int)) (k k1 : String) (v : Int)
    (h : k1 ≠ k) : mapGet (mapSet m k v) k1 = mapGet m k1 := by
  induction m with
  | nil => simp [mapSet, mapGet, List.lookup_cons, beq_false_of_ne h]
  | cons p rest ih =>
    obtain ⟨k2, v2⟩ := p
    by_cases h2 : k2 = k
    · subst h2
      simp [mapSet, mapGet, List.lookup_cons, beq_false_of_ne h]
    · simp only [mapSet, if_neg h2, mapGet, List.lookup_cons]
      cases hbeq : k1 == k2 with
      | true => rfl
      | false => exact ih

theorem mapGet_init_zero (banks : List Bank) (bid : String) :
    mapGet (banks.map fun b => (b.id, 0)) bid = 0 := by
  induction banks with
  | nil => rfl
  | cons b rest ih =>
    simp only [List.map_cons, mapGet, List.lookup_cons]
    cases hbeq : bid == b.id with
    | true => rfl
    | false => exact ih

theorem bankFold_get (l : List Transaction) :
    ∀ (m : List (String × Int)) (bid : String),
      mapGet (l.foldl
          (fun m t =>
            if t.status = TxStatus.PAID ∧ t.bankId ≠ "" then
              mapSet m t.bankId (mapGet m t.bankId + signedValue t)
            else m) m) bid
        = mapGet m bid
          + sumSigned (l.filter fun t =>
              t.status == TxStatus.PAID && t.bankId == bid && !(bid == "")) := by
  induction l with
  | nil => intro m bid; simp [sumSigned]
  | cons t rest ih =>
    intro m bid
    rw [List.foldl_cons, ih]
    by_cases hcond : t.status = TxStatus.PAID ∧ t.bankId ≠ ""
    · rw [if_pos hcond]
      by_cases hb : t.bankId = bid
      · have hbid : bid ≠ "" := hb ▸ hcond.2
        rw [hb, mapGet_set_self]
        rw [List.filter_cons, if_pos (by simp [hcond.1, hb, hbid])]
        rw [sumSigned_cons]
        omega
      · rw [mapGet_set_other m t.bankId bid (mapGet m t.bankId + signedValue t)
          (fun hc => hb hc.symm)]
        rw [List.filter_cons, if_neg (by simp [hb])]
    · rw [if_neg hcond]
      rcases not_and_or.mp hcond with h | h
      · rw [List.filter_cons, if_neg (by simp [h])]
      · have hb0 : t.bankId = "" := not_not.mp h
        by_cases hbid : bid = ""
        · rw [List.filter_cons, if_neg (by simp [hbid])]
        · rw [List.filter_cons, if_neg (by simp [hb0]; exact fun _ hc => hc.symm)]

theorem bankBalancesMap_get (banks : List Bank) (txns : List Transaction) (bid : String) :
    mapGet (bankBalancesMap banks txns) bid
      = sumSigned (txns.filter fun t =>
          t.status == TxStatus.PAID && t.bankId == bid && !(bid == "")) := by
  unfold bankBalancesMap
  rw [bankFold_get, mapGet_init_zero]
  omega

/-- C10: in the dashboard summary, the realized total accumulates every
PAID transaction regardless of `bankId`, while a bank's balance (both in
the accumulation map and in every displayed entry) accumulates exactly
the PAID transactions whose `bankId` equals that bank's id and is
non-empty; consequently a PAID transaction with an empty `bankId` (the
concrete conjunct: a PAID CREDIT of 100 with no bank) moves the total
to 100 while every per-bank balance stays 0, so the sum of displayed
per-bank balances (here the empty sum) differs from the realized
total. -/
theorem c10_summary_bank_balances (txns : List Transaction) (banks : List Bank) :
    ((summary txns).balance = sumSigned (paidOnly txns)) ∧
    (∀ b ∈ banks,
      mapGet (bankBalancesMap banks txns) b.id
        = sumSigned (txns.filter fun t =>
            t.status == TxStatus.PAID && t.bankId == b.id && !(b.id == ""))) ∧
    (∀ e ∈ bankBalances banks txns,
      e.balance = sumSigned (txns.filter fun t =>
        t.status == TxStatus.PAID && t.bankId == e.id && !(e.id == ""))) ∧
    ((summary [unassignedPaidTx]).balance = 100 ∧
     bankBalances [sampleBank] [unassignedPaidTx] = [] ∧
     ((bankBalances [sampleBank] [unassignedPaidTx]).map (fun e => e.balance)).sum
       ≠ (summary [unassignedPaidTx]).balance) := by
  refine ⟨summary_balance txns, ?_, ?_, by decide, by decide, by decide⟩
  · intro b _
    exact bankBalancesMap_get banks txns b.id
  · intro e he
    have he1 : e ∈ (banks.map fun b =>
        ({ id := b.id, name := b.name,
           balance := mapGet (bankBalancesMap banks txns) b.id } : BankBalance)).filter
        (fun b => b.balance ≠ 0) :=
      (List.perm_insertionSort _ _).mem_iff.mp he
    have he2 := (List.mem_filter.mp he1).1
    obtain ⟨b, _, rfl⟩ := List.mem_map.mp he2
    exact bankBalancesMap_get banks txns b.id

/-- Witness for `c10_summary_bank_balances`: the sample bank against the
unassigned PAID credit. -/
theorem c10_summary_bank_balances_witness :
    (summary [unassignedPaidTx]).balance = sumSigned (paidOnly [unassignedPaidTx]) ∧
    mapGet (bankBalancesMap [sampleBank] [unassignedPaidTx]) sampleBank.id
      = sumSigned ([unassignedPaidTx].filter fun t =>
          t.status == TxStatus.PAID && t.bankId == sampleBank.id &&
            !(sampleBank.id == "")) := by
  have h := c10_summary_bank_balances [unassignedPaidTx] [sampleBank]
  exact ⟨h.1, h.2.1 sampleBank (by decide)⟩

end SistemaFinanceiro
